import Mathlib

/-!
Shallow embedding of the auth-server (src/main.py): a credential-gated
licensing service with three operations (register, login, admin_approve)
over a single `users` table.  Pure Python string/date helpers are modelled
by structurally recursive Lean functions on character lists; the database
is a list of account rows; each HTTP handler becomes a function from the
store and the request body to a response together with the updated store.
-/

namespace AuthServer

/-! ## Python string helpers -/

/-- Whitespace characters removed by Python's `str.strip()`. -/
def isPySpace (c : Char) : Bool :=
  c == ' ' || c == '\t' || c == '\n' || c == '\r' || c == '\x0b' || c == '\x0c'

/-- Strip leading and trailing whitespace from a character list. -/
def stripChars (cs : List Char) : List Char :=
  ((cs.dropWhile isPySpace).reverse.dropWhile isPySpace).reverse

/-- Model of Python `str.strip()`. -/
def pyStrip (s : String) : String := ⟨stripChars s.data⟩

/-- Model of Python `str.isdigit()` (ASCII fragment): nonempty and all digits. -/
def pyIsDigit (s : String) : Bool :=
  !s.data.isEmpty && s.data.all Char.isDigit

/-- Numeric value of a decimal digit character. -/
def digitVal (c : Char) : Nat := c.toNat - 48

/-- Decimal value of a digit list, most significant first (Python `int(s)`). -/
def digitsToNat (cs : List Char) : Nat :=
  cs.foldl (fun acc c => acc * 10 + digitVal c) 0

/-- Split a character list at every dash, keeping empty components. -/
def splitDash : List Char → List (List Char)
  | [] => [[]]
  | c :: cs =>
    if c == '-' then [] :: splitDash cs
    else
      match splitDash cs with
      | [] => [[c]]
      | p :: ps => (c :: p) :: ps

/-! ## Calendar dates -/

/-- A calendar date (`datetime.date`): year, month, day. -/
structure Date where
  year : Nat
  month : Nat
  day : Nat
deriving Repr, DecidableEq

/-- Gregorian leap-year rule. -/
def isLeapYear (y : Nat) : Bool :=
  (y % 4 == 0 && y % 100 != 0) || y % 400 == 0

/-- Number of days in a month of a given year. -/
def daysInMonth (y m : Nat) : Nat :=
  if m == 2 then (if isLeapYear y then 29 else 28)
  else if m == 4 || m == 6 || m == 9 || m == 11 then 30
  else 31

/-- Strict ordering of dates (Python `date` comparison). -/
def Date.lt (a b : Date) : Bool :=
  Nat.blt a.year b.year ||
    (a.year == b.year &&
      (Nat.blt a.month b.month || (a.month == b.month && Nat.blt a.day b.day)))

/-- Left-pad the decimal rendering of `n` with zeros to width `w`. -/
def padNat (w n : Nat) : String :=
  let s := toString n
  ⟨List.replicate (w - s.data.length) '0' ++ s.data⟩

/-- Model of Python `str(date)`: ISO `YYYY-MM-DD` rendering. -/
def dateToString (d : Date) : String :=
  padNat 4 d.year ++ "-" ++ padNat 2 d.month ++ "-" ++ padNat 2 d.day

/-- Month component of CPython strptime `%m` (regex `1[0-2]|0[1-9]|[1-9]`):
one or two digit characters whose value lies in 1..12. -/
def monthOk (ms : List Char) : Bool :=
  ms.all Char.isDigit && (ms.length == 1 || ms.length == 2)
    && 1 ≤ digitsToNat ms && digitsToNat ms ≤ 12

/-- Day component of CPython strptime `%d` (regex
`3[0-1]|[1-2]\d|0[1-9]|[1-9]| [1-9]`): one or two digit characters whose
value lies in 1..31, or a space followed by a nonzero digit. -/
def dayVal (ds : List Char) : Option Nat :=
  if ds.all Char.isDigit && (ds.length == 1 || ds.length == 2)
      && 1 ≤ digitsToNat ds && digitsToNat ds ≤ 31 then
    some (digitsToNat ds)
  else
    match ds with
    | [' ', c] => if c.isDigit && c != '0' then some (digitVal c) else none
    | _ => none

/-- Model of `parse_ymd` (src/main.py line 58): CPython
`strptime(s, "%Y-%m-%d")` on the ASCII fragment — exactly four year digits
(`\d\d\d\d`), a 1-2 digit month valued 1..12, a 1-2 digit day valued 1..31
(or a space and a nonzero digit), then the `date` constructor's checks
(year at least 1, day within the month); `none` models the `ValueError`. -/
def parse_ymd (s : String) : Option Date :=
  match splitDash s.data with
  | [ys, ms, ds] =>
    if ys.length == 4 && ys.all Char.isDigit && 1 ≤ digitsToNat ys
        && monthOk ms then
      match dayVal ds with
      | some dv =>
        if dv ≤ daysInMonth (digitsToNat ys) (digitsToNat ms) then
          some ⟨digitsToNat ys, digitsToNat ms, dv⟩
        else none
      | none => none
    else none
  | _ => none

/-! ## JSON values and Python coercions -/

/-- A JSON scalar as the `approved` field of the admin body may carry it. -/
inductive JVal where
  | null
  | bool (b : Bool)
  | num (n : Int)
  | str (s : String)
deriving Repr, DecidableEq

/-- Model of Python `str(v)` on a JSON scalar. -/
def pyStr : JVal → String
  | .null => "None"
  | .bool true => "True"
  | .bool false => "False"
  | .num n => toString n
  | .str s => s

/-- Model of `isinstance(v, (int, str))`; a Python `bool` is an `int`. -/
def isIntOrStr : JVal → Bool
  | .null => false
  | .bool _ => true
  | .num _ => true
  | .str s => s == s

/-- Model of Python truthiness `bool(v)` on a JSON scalar. -/
def pyTruthy : JVal → Bool
  | .null => false
  | .bool b => b
  | .num n => n != 0
  | .str s => s != ""

/-- Model of src/main.py line 181: `bool(int(approved)) if isinstance(approved,
(int, str)) and str(approved).isdigit() else bool(approved)`. -/
def coerce_approved (v : JVal) : Bool :=
  if isIntOrStr v && pyIsDigit (pyStr v) then digitsToNat (pyStr v).data != 0
  else pyTruthy v

/-! ## Secrets (external collaborator: werkzeug.security) -/

/-- Model of `werkzeug.security.generate_password_hash`: an injective one-way
digest of the secret; the salt and scheme are irrelevant to the decision
logic, only that verification succeeds exactly for the original secret. -/
def generate_password_hash (pw : String) : String := "pbkdf2$" ++ pw

/-- Model of `werkzeug.security.check_password_hash`: verification succeeds
exactly when the candidate secret digests to the stored hash. -/
def check_password_hash (h pw : String) : Bool := h == generate_password_hash pw

/-! ## The store -/

/-- One row of the `users` table (src/main.py lines 42-48). -/
structure Account where
  id : String
  pw_hash : String
  approved : Bool
  expire_at : Option Date
  created_at : Nat
deriving Repr, DecidableEq

/-- Row lookup, `SELECT ... FROM users WHERE id = %s` on the primary key. -/
def findAccount (store : List Account) (uid : String) : Option Account :=
  store.find? (fun a => a.id == uid)

/-- Row update, `UPDATE users SET approved=%s, expire_at=%s WHERE id=%s`. -/
def updateAccount (store : List Account) (uid : String) (appr : Bool)
    (exp : Option Date) : List Account :=
  store.map (fun a => if a.id == uid then ⟨a.id, a.pw_hash, appr, exp, a.created_at⟩ else a)

/-! ## Requests and responses -/

/-- The JSON request body (`request.get_json(silent=True) or \x7b\x7d`); every
field is optional, a missing key reads as `None`. -/
structure ReqBody where
  id : Option String
  pw : Option String
  admin_key : Option String
  approved : Option JVal
  expire_at : Option String
deriving Repr, DecidableEq

/-- A JSON response together with its HTTP status: the `ok` flag and the
optional `reason`, `id`, `approved` and `expire_at` payload fields. -/
structure Resp where
  status : Nat
  ok : Bool
  reason : Option String
  id : Option String
  approved : Option Bool
  expire_at : Option String
deriving Repr, DecidableEq

/-- Every string value appearing in a response payload. -/
def Resp.strings (r : Resp) : List String :=
  r.reason.toList ++ r.id.toList ++ r.expire_at.toList

/-! ## The three handlers -/

/-- Model of `register` (src/main.py lines 91-119). `now` stands for the
`created_at` timestamp the database fills in. -/
def register (store : List Account) (body : ReqBody) (now : Nat) :
    Resp × List Account :=
  let user_id := pyStrip (body.id.getD "")
  let pw := pyStrip (body.pw.getD "")
  if user_id == "" || pw == "" then
    (⟨400, false, some "missing_id_or_pw", none, none, none⟩, store)
  else
    match findAccount store user_id with
    | some _ => (⟨200, false, some "already_exists", none, none, none⟩, store)
    | none =>
      (⟨200, true, none, some user_id, some false, none⟩,
       store ++ [⟨user_id, generate_password_hash pw, false, none, now⟩])

/-- Model of `login` (src/main.py lines 122-159). `today` stands for
`today_date()`, the server-local calendar date. -/
def login (store : List Account) (body : ReqBody) (today : Date) :
    Resp × List Account :=
  let user_id := pyStrip (body.id.getD "")
  let pw := pyStrip (body.pw.getD "")
  if user_id == "" || pw == "" then
    (⟨400, false, some "missing_id_or_pw", none, none, none⟩, store)
  else
    match findAccount store user_id with
    | none => (⟨200, false, some "no_user", none, none, none⟩, store)
    | some row =>
      if !check_password_hash row.pw_hash pw then
        (⟨200, false, some "wrong_pw", none, none, none⟩, store)
      else if !row.approved then
        (⟨200, false, some "not_approved", none, none, none⟩, store)
      else
        match row.expire_at with
        | some d =>
          if Date.lt d today then
            (⟨200, false, some "expired", none, none, some (dateToString d)⟩, store)
          else
            (⟨200, true, none, none, none, some (dateToString d)⟩, store)
        | none => (⟨200, true, none, none, none, some ""⟩, store)

/-- Model of `admin_auth_ok` (src/main.py lines 62-77): the stripped header
value or the stripped body field must equal the configured admin key.
`admin_key` is `ADMIN_KEY`, the environment value already stripped. -/
def admin_auth_ok (admin_key : String) (header : Option String)
    (body : ReqBody) : Bool :=
  if admin_key == "" then false
  else
    pyStrip (header.getD "") == admin_key || pyStrip (body.admin_key.getD "") == admin_key

/-- Model of `admin_approve` (src/main.py lines 162-206). -/
def admin_approve (admin_key : String) (store : List Account)
    (header : Option String) (body : ReqBody) : Resp × List Account :=
  if admin_key == "" then
    (⟨500, false, some "admin_key_not_configured", none, none, none⟩, store)
  else if !admin_auth_ok admin_key header body then
    (⟨403, false, some "unauthorized", none, none, none⟩, store)
  else
    let user_id := pyStrip (body.id.getD "")
    let approved := body.approved.getD JVal.null
    let expire_at := pyStrip (body.expire_at.getD "")
    if user_id == "" then
      (⟨400, false, some "missing_id", none, none, none⟩, store)
    else
      let approved_bool := coerce_approved approved
      if expire_at != "" && (parse_ymd expire_at).isNone then
        (⟨400, false, some "bad_expire_format", none, none, some expire_at⟩, store)
      else
        let exp_date := if expire_at == "" then none else parse_ymd expire_at
        match findAccount store user_id with
        | none => (⟨404, false, some "no_user", none, none, none⟩, store)
        | some _ =>
          (⟨200, true, none, some user_id, some approved_bool, some expire_at⟩,
           updateAccount store user_id approved_bool exp_date)

/-! ## Concrete fixtures -/

/-- Fixture: one approved account with no stored expiry. -/
def c1Store : List Account :=
  [⟨"alice", generate_password_hash "pw1234", true, none, 0⟩]

/-- Fixture: the matching login request for [c1Store]. -/
def c1Body : ReqBody := ⟨some "alice", some "pw1234", none, none, none⟩

/-- Fixture: a second approved account with no stored expiry. -/
def c3Store : List Account :=
  [⟨"bob", generate_password_hash "hunter2", true, none, 1⟩]

/-- Fixture: the matching login request for [c3Store]. -/
def c3Body : ReqBody := ⟨some "bob", some "hunter2", none, none, none⟩

/-! ## Claim theorems -/

/-- Claim C1, counterexample: an approved account with no stored expiry and
the correct identity and secret is granted login (ok, empty expiry string,
no reason code), not denied with no_expire_set as the claim states. -/
theorem c1_counterexample :
    (login c1Store c1Body ⟨2026, 10, 12⟩).1
      = ⟨200, true, none, none, none, some ""⟩ := by
  decide

/-- Claim C1, amended: for every account that is approved but has no stored
expiry, login with the correct (nonempty) identity and secret is granted,
returning an empty expire_at string; the code has no no_expire_set check and
treats a missing expiry as unlimited. -/
theorem c1_amended (store : List Account) (body : ReqBody) (today : Date)
    (row : Account)
    (hid : pyStrip (body.id.getD "") ≠ "")
    (hpw : pyStrip (body.pw.getD "") ≠ "")
    (hfind : findAccount store (pyStrip (body.id.getD "")) = some row)
    (hck : check_password_hash row.pw_hash (pyStrip (body.pw.getD "")) = true)
    (happ : row.approved = true)
    (hexp : row.expire_at = none) :
    (login store body today).1 = ⟨200, true, none, none, none, some ""⟩ := by
  simp [login, hfind, hck, happ, hexp, hid, hpw]

/-- Claim C1, witness: the amended statement evaluated on a concrete approved
account with no stored expiry. -/
theorem c1_witness :
    (login c3Store c3Body ⟨2030, 1, 1⟩).1
      = ⟨200, true, none, none, none, some ""⟩ :=
  c1_amended c3Store c3Body ⟨2030, 1, 1⟩
    ⟨"bob", generate_password_hash "hunter2", true, none, 1⟩
    (by decide) (by decide) (by decide) (by decide) rfl rfl

/-- Claim C7: login never mutates the store, whatever the outcome. -/
theorem c7_login_no_mutation (store : List Account) (body : ReqBody)
    (today : Date) :
    (login store body today).2 = store := by
  unfold login
  dsimp only
  repeat' split
  all_goals rfl

/-- Claim C3, counterexample: the claimed rung 5 (missing expiry) does not
exist in the code: an approved account with no stored expiry and the correct
secret yields a successful login, not a no_expire_set denial as the claimed
check order requires. -/
theorem c3_counterexample :
    (login c1Store c1Body ⟨2027, 3, 4⟩).1.ok = true
      ∧ (login c1Store c1Body ⟨2027, 3, 4⟩).1.reason = none := by
  decide

/-- Claim C3, amended: login evaluates missing input, then unknown identity,
then wrong secret, then not-approved, then (only when an expiry is stored)
expired, short-circuiting at the first failure; there is no missing-expiry or
bad-expiry-format check, an approved account with no stored expiry succeeds;
in particular a Pending account with the correct secret gets not_approved. -/
theorem c3_amended (store : List Account) (body : ReqBody) (today : Date) :
    ((pyStrip (body.id.getD "") = "" ∨ pyStrip (body.pw.getD "") = "") →
      (login store body today).1.reason = some "missing_id_or_pw")
    ∧ (pyStrip (body.id.getD "") ≠ "" → pyStrip (body.pw.getD "") ≠ "" →
        findAccount store (pyStrip (body.id.getD "")) = none →
        (login store body today).1.reason = some "no_user")
    ∧ (∀ row, pyStrip (body.id.getD "") ≠ "" → pyStrip (body.pw.getD "") ≠ "" →
        findAccount store (pyStrip (body.id.getD "")) = some row →
        check_password_hash row.pw_hash (pyStrip (body.pw.getD "")) = false →
        (login store body today).1.reason = some "wrong_pw")
    ∧ (∀ row, pyStrip (body.id.getD "") ≠ "" → pyStrip (body.pw.getD "") ≠ "" →
        findAccount store (pyStrip (body.id.getD "")) = some row →
        check_password_hash row.pw_hash (pyStrip (body.pw.getD "")) = true →
        row.approved = false →
        (login store body today).1.reason = some "not_approved")
    ∧ (∀ row d, pyStrip (body.id.getD "") ≠ "" → pyStrip (body.pw.getD "") ≠ "" →
        findAccount store (pyStrip (body.id.getD "")) = some row →
        check_password_hash row.pw_hash (pyStrip (body.pw.getD "")) = true →
        row.approved = true → row.expire_at = some d → Date.lt d today = true →
        (login store body today).1
          = ⟨200, false, some "expired", none, none, some (dateToString d)⟩)
    ∧ (∀ row, pyStrip (body.id.getD "") ≠ "" → pyStrip (body.pw.getD "") ≠ "" →
        findAccount store (pyStrip (body.id.getD "")) = some row →
        check_password_hash row.pw_hash (pyStrip (body.pw.getD "")) = true →
        row.approved = true →
        (row.expire_at = none ∨
          ∃ d, row.expire_at = some d ∧ Date.lt d today = false) →
        (login store body today).1.ok = true) := by
  refine ⟨?_, ?_, ?_, ?_, ?_, ?_⟩
  · rintro (h | h) <;> simp [login, h]
  · intro hid hpw hfind
    simp [login, hid, hpw, hfind]
  · intro row hid hpw hfind hck
    simp [login, hid, hpw, hfind, hck]
  · intro row hid hpw hfind hck happ
    simp [login, hid, hpw, hfind, hck, happ]
  · intro row d hid hpw hfind hck happ hexp hlt
    simp [login, hid, hpw, hfind, hck, happ, hexp, hlt]
  · intro row hid hpw hfind hck happ hexp
    rcases hexp with h | ⟨d, hd, hlt⟩
    · simp [login, hid, hpw, hfind, hck, happ, h]
    · simp [login, hid, hpw, hfind, hck, happ, hd, hlt]

/-- Claim C4: for an approved account with a stored expiry and the correct
secret, login fails with reason expired exactly when today is strictly after
the stored date, and succeeds returning the expiry date otherwise. -/
theorem c4_expiry_boundary (store : List Account) (body : ReqBody)
    (today : Date) (row : Account) (d : Date)
    (hid : pyStrip (body.id.getD "") ≠ "")
    (hpw : pyStrip (body.pw.getD "") ≠ "")
    (hfind : findAccount store (pyStrip (body.id.getD "")) = some row)
    (hck : check_password_hash row.pw_hash (pyStrip (body.pw.getD "")) = true)
    (happ : row.approved = true)
    (hexp : row.expire_at = some d) :
    (Date.lt d today = true →
      (login store body today).1
        = ⟨200, false, some "expired", none, none, some (dateToString d)⟩)
    ∧ (Date.lt d today = false →
      (login store body today).1
        = ⟨200, true, none, none, none, some (dateToString d)⟩) := by
  constructor <;> intro hlt <;> simp [login, hid, hpw, hfind, hck, happ, hexp, hlt]

/-- Fixture: an approved account expiring on 2026-10-12. -/
def c4Store : List Account :=
  [⟨"dave", generate_password_hash "secret9", true, some ⟨2026, 10, 12⟩, 2⟩]

/-- Fixture: the matching login request for [c4Store]. -/
def c4Body : ReqBody := ⟨some "dave", some "secret9", none, none, none⟩

/-- Claim C4, witness: with the stored expiry equal to today, login succeeds
and returns the expiry date. -/
theorem c4_witness :
    (login c4Store c4Body ⟨2026, 10, 12⟩).1
      = ⟨200, true, none, none, none, some "2026-10-12"⟩ :=
  (c4_expiry_boundary c4Store c4Body ⟨2026, 10, 12⟩
      ⟨"dave", generate_password_hash "secret9", true, some ⟨2026, 10, 12⟩, 2⟩
      ⟨2026, 10, 12⟩ (by decide) (by decide) (by decide) (by decide)
      rfl rfl).2 (by decide)

/-- Claim C5: admin approval fails closed with admin_key_not_configured when
no admin key is configured, fails with unauthorized when neither the stripped
header value nor the stripped body field equals the configured key, leaves
the store untouched in both failure cases, and a presented value matching on
either channel is never refused as unauthorized or not-configured. -/
theorem c5_admin_auth (admin_key : String) (store : List Account)
    (header : Option String) (body : ReqBody) :
    (admin_key = "" →
      admin_approve admin_key store header body
        = (⟨500, false, some "admin_key_not_configured", none, none, none⟩, store))
    ∧ (admin_key ≠ "" →
        pyStrip (header.getD "") ≠ admin_key →
        pyStrip (body.admin_key.getD "") ≠ admin_key →
        admin_approve admin_key store header body
          = (⟨403, false, some "unauthorized", none, none, none⟩, store))
    ∧ (admin_key ≠ "" →
        (pyStrip (header.getD "") = admin_key ∨
          pyStrip (body.admin_key.getD "") = admin_key) →
        (admin_approve admin_key store header body).1.reason ≠ some "unauthorized"
          ∧ (admin_approve admin_key store header body).1.reason
              ≠ some "admin_key_not_configured") := by
  refine ⟨?_, ?_, ?_⟩
  · intro h
    simp [admin_approve, h]
  · intro hk h1 h2
    simp [admin_approve, admin_auth_ok, hk, h1, h2]
  · intro hk hmatch
    have hauth : admin_auth_ok admin_key header body = true := by
      rcases hmatch with h | h <;> simp [admin_auth_ok, hk, h]
    unfold admin_approve
    dsimp only
    rw [if_neg (by simp [hk]), if_neg (by simp [hauth])]
    repeat' split
    all_goals simp

/-- Claim C6: register on a store already holding the identity reports
already_exists with HTTP 200 (an ordinary outcome, not a fault) and leaves
the store unchanged; on a fresh identity it appends exactly one pending
account carrying the digest of the secret and no expiry, and answers with
the identity and approved = false. -/
theorem c6_register (store : List Account) (body : ReqBody) (now : Nat)
    (hid : pyStrip (body.id.getD "") ≠ "")
    (hpw : pyStrip (body.pw.getD "") ≠ "") :
    (∀ row, findAccount store (pyStrip (body.id.getD "")) = some row →
      register store body now
        = (⟨200, false, some "already_exists", none, none, none⟩, store))
    ∧ (findAccount store (pyStrip (body.id.getD "")) = none →
      register store body now
        = (⟨200, true, none, some (pyStrip (body.id.getD "")), some false, none⟩,
           store ++ [⟨pyStrip (body.id.getD ""),
                     generate_password_hash (pyStrip (body.pw.getD "")),
                     false, none, now⟩])) := by
  constructor
  · intro row hfind
    simp [register, hid, hpw, hfind]
  · intro hfind
    simp [register, hid, hpw, hfind]

/-- Fixture: register request for a fresh identity. -/
def c6Body : ReqBody := ⟨some "erin", some "pw5678", none, none, none⟩

/-- Claim C6, witness: registering a fresh identity on the empty store
appends one pending account and reports approved = false. -/
theorem c6_witness :
    register [] c6Body 7
      = (⟨200, true, none, some "erin", some false, none⟩,
         [⟨"erin", generate_password_hash "pw5678", false, none, 7⟩]) := by
  exact (c6_register [] c6Body 7 (by decide) (by decide)).2 rfl

/-- Fixture: a pending account awaiting approval. -/
def c2Store : List Account :=
  [⟨"carol", generate_password_hash "pw9999", false, none, 3⟩]

/-- Fixture: admin approval request with approved = true and no expire_at
field. -/
def c2Body : ReqBody := ⟨some "carol", none, none, some (JVal.bool true), none⟩

/-- Claim C2, counterexample: approving with no expire_at field does not fail
with a missing-expiry error; the call succeeds and stores approved = true
with a null expiry. -/
theorem c2_counterexample :
    admin_approve "adminkey" c2Store (some "adminkey") c2Body
      = (⟨200, true, none, some "carol", some true, some ""⟩,
         [⟨"carol", generate_password_hash "pw9999", true, none, 3⟩]) := by
  decide

/-- Claim C2, amended: under an authenticated call on an existing identity
with approved coercing to true, a present but unparseable expire_at fails
with bad_expire_format and mutates nothing; a parseable expire_at succeeds
and stores state Approved with that date; an absent (or blank) expire_at
nevertheless succeeds, storing Approved with a null expiry — no
missing-expiry error exists. -/
theorem c2_amended (admin_key : String) (store : List Account)
    (header : Option String) (body : ReqBody) (row : Account)
    (hk : admin_key ≠ "")
    (hauth : admin_auth_ok admin_key header body = true)
    (hid : pyStrip (body.id.getD "") ≠ "")
    (hab : coerce_approved (body.approved.getD JVal.null) = true)
    (hrow : findAccount store (pyStrip (body.id.getD "")) = some row) :
    (pyStrip (body.expire_at.getD "") ≠ "" →
      parse_ymd (pyStrip (body.expire_at.getD "")) = none →
      admin_approve admin_key store header body
        = (⟨400, false, some "bad_expire_format", none, none,
            some (pyStrip (body.expire_at.getD ""))⟩, store))
    ∧ (∀ d, pyStrip (body.expire_at.getD "") ≠ "" →
        parse_ymd (pyStrip (body.expire_at.getD "")) = some d →
        admin_approve admin_key store header body
          = (⟨200, true, none, some (pyStrip (body.id.getD "")), some true,
              some (pyStrip (body.expire_at.getD ""))⟩,
             updateAccount store (pyStrip (body.id.getD "")) true (some d)))
    ∧ (pyStrip (body.expire_at.getD "") = "" →
        admin_approve admin_key store header body
          = (⟨200, true, none, some (pyStrip (body.id.getD "")), some true,
              some ""⟩,
             updateAccount store (pyStrip (body.id.getD "")) true none)) := by
  refine ⟨?_, ?_, ?_⟩
  · intro hne hpar
    simp [admin_approve, hk, hauth, hid, hne, hpar]
  · intro d hne hpar
    simp [admin_approve, hk, hauth, hid, hne, hpar, hrow, hab]
  · intro he
    simp [admin_approve, hk, hauth, hid, he, hrow, hab]

/-- Fixture: a pending account for the C2 witness. -/
def c2wStore : List Account :=
  [⟨"carla", generate_password_hash "pw8888", false, none, 4⟩]

/-- Fixture: admin approval request with a parseable expire_at. -/
def c2wBody : ReqBody :=
  ⟨some "carla", none, none, some (JVal.str "1"), some "2030-01-01"⟩

/-- Claim C2, witness: the amended statement evaluated on a concrete
authenticated approval carrying the date 2030-01-01. -/
theorem c2_witness :
    admin_approve "adminkey" c2wStore (some "adminkey") c2wBody
      = (⟨200, true, none, some "carla", some true, some "2030-01-01"⟩,
         [⟨"carla", generate_password_hash "pw8888", true, some ⟨2030, 1, 1⟩, 4⟩]) := by
  have h := (c2_amended "adminkey" c2wStore (some "adminkey") c2wBody
      ⟨"carla", generate_password_hash "pw8888", false, none, 4⟩
      (by decide) (by decide) (by decide) (by decide) (by decide)).2.1
      ⟨2030, 1, 1⟩ (by decide) (by decide)
  rw [h]
  decide

/-- Parse boundary: a three-digit year is rejected by strptime, so the
program answers bad_expire_format without touching the store. -/
theorem parse_ymd_three_digit_year :
    parse_ymd "500-1-1" = none
      ∧ admin_approve "adminkey" c2wStore (some "adminkey")
          ⟨some "carla", none, none, some (JVal.str "1"), some "500-1-1"⟩
        = (⟨400, false, some "bad_expire_format", none, none, some "500-1-1"⟩,
           c2wStore) := by
  constructor
  · decide
  · decide

/-- Parse boundary: a space-padded day is accepted by strptime, so the
program approves and stores the parsed date. -/
theorem parse_ymd_space_day :
    parse_ymd "2030-01- 5" = some ⟨2030, 1, 5⟩
      ∧ admin_approve "adminkey" c2wStore (some "adminkey")
          ⟨some "carla", none, none, some (JVal.str "1"), some "2030-01- 5"⟩
        = (⟨200, true, none, some "carla", some true, some "2030-01- 5"⟩,
           [⟨"carla", generate_password_hash "pw8888", true, some ⟨2030, 1, 5⟩, 4⟩]) := by
  constructor
  · decide
  · decide

/-- Claim C9: the approved field is coerced with Python truthiness after a
digit check, so "false" and every nonempty non-digit string count as true,
"0" and "1" map to false and true, an absent field counts as false (revoke),
and no missing_approved reason is ever produced; moreover with an absent
approved field the call can never report approved = true. -/
theorem c9_approved_coercion :
    coerce_approved (JVal.str "false") = true
    ∧ (∀ s, s ≠ "" → pyIsDigit s = false → coerce_approved (JVal.str s) = true)
    ∧ coerce_approved (JVal.str "0") = false
    ∧ coerce_approved (JVal.str "1") = true
    ∧ coerce_approved JVal.null = false
    ∧ (∀ admin_key store header body,
        ((admin_approve admin_key store header body).1).reason
          ≠ some "missing_approved")
    ∧ (∀ admin_key store header body, body.approved = none →
        ((admin_approve admin_key store header body).1).approved
          ≠ some true) := by
  refine ⟨by decide, ?_, by decide, by decide, by decide, ?_, ?_⟩
  · intro s hs hdig
    simp [coerce_approved, isIntOrStr, pyStr, hdig, pyTruthy, hs]
  · intro admin_key store header body
    unfold admin_approve
    dsimp only
    repeat' split
    all_goals simp
  · intro admin_key store header body hnone
    unfold admin_approve
    dsimp only
    repeat' split
    all_goals simp [hnone, coerce_approved, isIntOrStr, pyTruthy]

/-- Path-independent shape of every successful admin_approve: the response
echoes the stripped identity, the coerced flag and the raw expiry string, and
the store is rewritten through updateAccount with the parsed (or null)
expiry. -/
theorem admin_approve_ok_eq (admin_key : String) (store : List Account)
    (header : Option String) (body : ReqBody) :
    ((admin_approve admin_key store header body).1).ok = true →
    admin_approve admin_key store header body
      = (⟨200, true, none, some (pyStrip (body.id.getD "")),
          some (coerce_approved (body.approved.getD JVal.null)),
          some (pyStrip (body.expire_at.getD ""))⟩,
         updateAccount store (pyStrip (body.id.getD ""))
           (coerce_approved (body.approved.getD JVal.null))
           (if pyStrip (body.expire_at.getD "") == "" then none
            else parse_ymd (pyStrip (body.expire_at.getD "")))) := by
  unfold admin_approve
  dsimp only
  repeat' split
  all_goals intro hok
  all_goals first
    | rfl
    | exact absurd hok (by simp)

/-- Claim C10: a successful admin_approve rewrites exactly the target
account, overwriting its approved flag with the coerced value and its
expire_at with the parsed date when one was supplied and with null when the
field was absent or blank, while the account's identity, secret digest and
created_at, and every other account, are untouched. -/
theorem c10_admin_success_frame (admin_key : String) (store : List Account)
    (header : Option String) (body : ReqBody)
    (hok : ((admin_approve admin_key store header body).1).ok = true) :
    ∃ expd : Option Date,
      (pyStrip (body.expire_at.getD "") = "" → expd = none)
      ∧ (∀ d, pyStrip (body.expire_at.getD "") ≠ "" →
          parse_ymd (pyStrip (body.expire_at.getD "")) = some d →
          expd = some d)
      ∧ (admin_approve admin_key store header body).2
          = store.map (fun a =>
              if a.id == pyStrip (body.id.getD "") then
                ⟨a.id, a.pw_hash,
                 coerce_approved (body.approved.getD JVal.null), expd,
                 a.created_at⟩
              else a) := by
  have h := admin_approve_ok_eq admin_key store header body hok
  refine ⟨if pyStrip (body.expire_at.getD "") == "" then none
          else parse_ymd (pyStrip (body.expire_at.getD "")), ?_, ?_, ?_⟩
  · intro he
    simp [he]
  · intro d hne hd
    simp [hne, hd]
  · rw [h]
    rfl

/-- Fixture: a revoked account with a stale stored expiry. -/
def c10Store : List Account :=
  [⟨"frank", generate_password_hash "pw7777", false, some ⟨2020, 1, 1⟩, 5⟩]

/-- Fixture: admin approval request carrying the date 2031-05-06. -/
def c10Body : ReqBody :=
  ⟨some "frank", none, none, some (JVal.num 1), some "2031-05-06"⟩

/-- Claim C10, witness: the frame statement evaluated on a concrete
successful approval. -/
theorem c10_witness :
    ∃ expd : Option Date,
      (pyStrip (c10Body.expire_at.getD "") = "" → expd = none)
      ∧ (∀ d, pyStrip (c10Body.expire_at.getD "") ≠ "" →
          parse_ymd (pyStrip (c10Body.expire_at.getD "")) = some d →
          expd = some d)
      ∧ (admin_approve "adminkey" c10Store (some "adminkey") c10Body).2
          = c10Store.map (fun a =>
              if a.id == pyStrip (c10Body.id.getD "") then
                ⟨a.id, a.pw_hash,
                 coerce_approved (c10Body.approved.getD JVal.null), expd,
                 a.created_at⟩
              else a) :=
  c10_admin_success_frame "adminkey" c10Store (some "adminkey") c10Body
    (by decide)

/-! ## Storage faults and response payload strings (claim C8)

Each handler wraps its database work in a try block whose `except Exception`
branch answers `ok=false, reason="db_error", detail=str(e)`
(src/main.py lines 116-117, 140-141, 203-204).  The fault is made explicit
as an extra input: `dbFault = some msg` models the storage layer raising an
exception with `str(e) = msg` inside the try block; `none` models storage
working.  Checks the source performs before entering the try block still
answer normally under a fault. -/

/-- A response together with the optional `detail` field of the db_error
branch. -/
structure RespD where
  base : Resp
  detail : Option String
deriving Repr, DecidableEq

/-- Every string value appearing in a fault-aware response payload. -/
def RespD.strings (r : RespD) : List String :=
  r.base.strings ++ r.detail.toList

/-- Model of `register` (src/main.py lines 91-119) with the handled
storage-fault branch: the input-shape check precedes the try block, the
rest of the work sits inside it. -/
def registerF (store : List Account) (body : ReqBody) (now : Nat)
    (dbFault : Option String) : RespD × List Account :=
  match dbFault with
  | none => (⟨(register store body now).1, none⟩, (register store body now).2)
  | some msg =>
    if pyStrip (body.id.getD "") == "" || pyStrip (body.pw.getD "") == "" then
      (⟨(register store body now).1, none⟩, store)
    else
      (⟨⟨500, false, some "db_error", none, none, none⟩, some msg⟩, store)

/-- Model of `login` (src/main.py lines 122-159) with the handled
storage-fault branch: the input-shape check precedes the try block, the
SELECT sits inside it. -/
def loginF (store : List Account) (body : ReqBody) (today : Date)
    (dbFault : Option String) : RespD × List Account :=
  match dbFault with
  | none => (⟨(login store body today).1, none⟩, (login store body today).2)
  | some msg =>
    if pyStrip (body.id.getD "") == "" || pyStrip (body.pw.getD "") == "" then
      (⟨(login store body today).1, none⟩, store)
    else
      (⟨⟨500, false, some "db_error", none, none, none⟩, some msg⟩, store)

/-- Model of `admin_approve` (src/main.py lines 162-206) with the handled
storage-fault branch: configuration, authentication, identity and expiry
parsing precede the try block, the existence check and UPDATE sit inside
it. -/
def admin_approveF (admin_key : String) (store : List Account)
    (header : Option String) (body : ReqBody) (dbFault : Option String) :
    RespD × List Account :=
  match dbFault with
  | none =>
    (⟨(admin_approve admin_key store header body).1, none⟩,
     (admin_approve admin_key store header body).2)
  | some msg =>
    if admin_key == "" || !admin_auth_ok admin_key header body
        || pyStrip (body.id.getD "") == ""
        || (pyStrip (body.expire_at.getD "") != ""
            && (parse_ymd (pyStrip (body.expire_at.getD ""))).isNone) then
      (⟨(admin_approve admin_key store header body).1, none⟩, store)
    else
      (⟨⟨500, false, some "db_error", none, none, none⟩, some msg⟩, store)

/-- Every handler-controlled string a register response may carry: the
reason codes and the echoed stripped identity. -/
def registerAllowed (body : ReqBody) : List String :=
  ["missing_id_or_pw", "already_exists", "db_error", pyStrip (body.id.getD "")]

/-- Every handler-controlled string a login response may carry: the reason
codes, the empty expiry confirmation and the renderings of expiry dates
stored in the accounts. -/
def loginAllowed (store : List Account) : List String :=
  ["missing_id_or_pw", "no_user", "wrong_pw", "not_approved", "expired",
   "db_error", ""]
    ++ store.filterMap (fun a => a.expire_at.map dateToString)

/-- Every handler-controlled string an admin_approve response may carry: the
reason codes and the echoed stripped identity and expiry fields. -/
def adminAllowed (body : ReqBody) : List String :=
  ["admin_key_not_configured", "unauthorized", "missing_id",
   "bad_expire_format", "no_user", "db_error", pyStrip (body.id.getD ""),
   pyStrip (body.expire_at.getD "")]

/-- Register responses only carry reason codes or the echoed identity. -/
theorem register_strings_allowed (store : List Account) (body : ReqBody)
    (now : Nat) :
    ∀ t ∈ ((register store body now).1).strings, t ∈ registerAllowed body := by
  unfold register
  dsimp only
  repeat' split
  all_goals simp [Resp.strings, registerAllowed]

/-- Login responses only carry reason codes, the empty string or a rendering
of an expiry date stored in the store. -/
theorem login_strings_allowed (store : List Account) (body : ReqBody)
    (today : Date) :
    ∀ t ∈ ((login store body today).1).strings, t ∈ loginAllowed store := by
  unfold login
  dsimp only
  split
  · simp [Resp.strings, loginAllowed]
  · split
    · simp [Resp.strings, loginAllowed]
    · rename_i row hfind
      have hrow : row ∈ store := List.mem_of_find?_eq_some hfind
      split
      · simp [Resp.strings, loginAllowed]
      · split
        · simp [Resp.strings, loginAllowed]
        · split
          · rename_i d hexp
            have hd : dateToString d
                ∈ store.filterMap (fun a => a.expire_at.map dateToString) :=
              List.mem_filterMap.mpr ⟨row, hrow, by simp [hexp]⟩
            split
            · intro t ht
              simp [Resp.strings] at ht
              rcases ht with h | h <;> simp [loginAllowed, h, hd]
            · intro t ht
              simp [Resp.strings] at ht
              simp [loginAllowed, ht, hd]
          · simp [Resp.strings, loginAllowed]

/-- Admin responses only carry reason codes or the echoed identity and
expiry fields. -/
theorem admin_strings_allowed (admin_key : String) (store : List Account)
    (header : Option String) (body : ReqBody) :
    ∀ t ∈ ((admin_approve admin_key store header body).1).strings,
      t ∈ adminAllowed body := by
  unfold admin_approve
  dsimp only
  repeat' split
  all_goals simp [Resp.strings, adminAllowed]

/-- Fixture: an approved account with a stored expiry for claim C8. -/
def c8Store : List Account :=
  [⟨"gina", generate_password_hash "pw4321", true, some ⟨2030, 12, 31⟩, 6⟩]

/-- Fixture: the matching register/login request for [c8Store]. -/
def c8Body : ReqBody := ⟨some "gina", some "pw4321", none, none, none⟩

/-- Fixture: an admin request against [c8Store]. -/
def c8AdminBody : ReqBody :=
  ⟨some "gina", none, some "adminkey", some (JVal.bool true), some "2031-01-01"⟩

/-- Claim C8, counterexample: the db_error branch forwards the storage
exception text verbatim as the detail field (src/main.py line 141), so a
fault whose exception text is the stored secret digest puts that digest in
the login response payload — the claim fails for the fault outcome. -/
theorem c8_counterexample :
    generate_password_hash "pw4321"
      ∈ ((loginF c8Store c8Body ⟨2026, 10, 12⟩
            (some (generate_password_hash "pw4321"))).1).strings := by
  decide

/-- Claim C8, amended: every string in any response of the three operations
is a fixed reason code, an echoed identity or expiry field, or — only in
the storage-fault outcome — the exception text forwarded verbatim as
detail; hence any string outside those allowed lists and distinct from the
forwarded exception text — in particular the caller's raw secret and every
stored secret digest, unless the exception text itself carries them —
never appears in a response payload. -/
theorem c8_amended (admin_key : String) (store : List Account)
    (header : Option String) (bodyR bodyL bodyA : ReqBody) (now : Nat)
    (today : Date) (dbFault : Option String) (s : String)
    (hr : s ∉ registerAllowed bodyR)
    (hl : s ∉ loginAllowed store)
    (ha : s ∉ adminAllowed bodyA)
    (hf : ∀ msg, dbFault = some msg → s ≠ msg) :
    s ∉ ((registerF store bodyR now dbFault).1).strings
    ∧ s ∉ ((loginF store bodyL today dbFault).1).strings
    ∧ s ∉ ((admin_approveF admin_key store header bodyA dbFault).1).strings := by
  refine ⟨?_, ?_, ?_⟩
  · cases dbFault with
    | none =>
      intro hmem
      simp only [registerF, RespD.strings, Option.toList, List.append_nil] at hmem
      exact hr (register_strings_allowed store bodyR now s hmem)
    | some msg =>
      intro hmem
      simp only [registerF] at hmem
      split at hmem
      · simp only [RespD.strings, Option.toList, List.append_nil] at hmem
        exact hr (register_strings_allowed store bodyR now s hmem)
      · simp only [RespD.strings, Resp.strings, Option.toList] at hmem
        simp at hmem
        rcases hmem with h | h
        · exact hr (by simp [registerAllowed, h])
        · exact hf msg rfl h
  · cases dbFault with
    | none =>
      intro hmem
      simp only [loginF, RespD.strings, Option.toList, List.append_nil] at hmem
      exact hl (login_strings_allowed store bodyL today s hmem)
    | some msg =>
      intro hmem
      simp only [loginF] at hmem
      split at hmem
      · simp only [RespD.strings, Option.toList, List.append_nil] at hmem
        exact hl (login_strings_allowed store bodyL today s hmem)
      · simp only [RespD.strings, Resp.strings, Option.toList] at hmem
        simp at hmem
        rcases hmem with h | h
        · exact hl (by simp [loginAllowed, h])
        · exact hf msg rfl h
  · cases dbFault with
    | none =>
      intro hmem
      simp only [admin_approveF, RespD.strings, Option.toList,
        List.append_nil] at hmem
      exact ha (admin_strings_allowed admin_key store header bodyA s hmem)
    | some msg =>
      intro hmem
      simp only [admin_approveF] at hmem
      split at hmem
      · simp only [RespD.strings, Option.toList, List.append_nil] at hmem
        exact ha (admin_strings_allowed admin_key store header bodyA s hmem)
      · simp only [RespD.strings, Resp.strings, Option.toList] at hmem
        simp at hmem
        rcases hmem with h | h
        · exact ha (by simp [adminAllowed, h])
        · exact hf msg rfl h

/-- Claim C8, witness: the amended statement evaluated on a concrete store,
concrete requests and a concrete storage fault. -/
theorem c8_witness :
    "pw4321" ∉ ((registerF c8Store c8Body 6 (some "connection refused")).1).strings
    ∧ "pw4321"
        ∉ ((loginF c8Store c8Body ⟨2026, 10, 12⟩ (some "connection refused")).1).strings
    ∧ "pw4321"
        ∉ ((admin_approveF "adminkey" c8Store (some "adminkey") c8AdminBody
              (some "connection refused")).1).strings :=
  c8_amended "adminkey" c8Store (some "adminkey") c8Body c8Body c8AdminBody 6
    ⟨2026, 10, 12⟩ (some "connection refused") "pw4321"
    (by decide) (by decide) (by decide)
    (fun msg hmsg => by cases hmsg; decide)

end AuthServer
